import Mathlib

/-!
Shallow embedding of the event-management application state layer
(src/App.tsx together with the shared type declarations).

The React component state (the useState hooks of App) is modelled as an
explicit record AppState.  Each action handler of App.tsx becomes a pure
function from the pre-state (plus the handler inputs and the outcome of
the remote persistence calls it awaits) to the post-state, paired with
the list of remote calls the handler issued, in order.  Asynchronous
remote calls are deterministic parameters: a Bool for success/failure of
a mutation call, an Option for a fetch result (none = the fetch threw).
-/

namespace EventApp

/-- Values of the TS union RegistrationStatus in src/unnamed/part_000. -/
inductive RegistrationStatus where
  | none
  | pending
  | confirmed
  | rejected
deriving DecidableEq, Repr

/-- Values of the event lifecycle status union in IEvent. -/
inductive EventStatus where
  | upcoming
  | ongoing
  | completed
  | future
deriving DecidableEq, Repr

/-- Values of the role union in IUser. -/
inductive Role where
  | user
  | admin
deriving DecidableEq, Repr

/-- The IEvent interface of src/unnamed/part_000.  Optional TS fields become
Option; the absent registrationStatus (undefined in TS) is Option.none. -/
structure Event where
  _id : String
  title : String
  date : String
  location : String
  description : String
  category : String
  attendees : Nat
  capacity : Nat
  imageUrl : Option String
  status : EventStatus
  registrationStatus : Option RegistrationStatus
deriving DecidableEq, Repr

/-- EventFormData = Omit IEvent of _id, attendees, registrationStatus. -/
structure EventFormData where
  title : String
  date : String
  location : String
  description : String
  category : String
  capacity : Nat
  imageUrl : Option String
  status : EventStatus
deriving DecidableEq, Repr

/-- The IUser interface. -/
structure User where
  id : String
  name : String
  email : String
  phoneNumber : Option String
  role : Role
deriving DecidableEq, Repr

/-- The IApplication interface. -/
structure Application where
  id : String
  eventId : String
  eventTitle : String
  userId : String
  userName : String
  userEmail : String
  userPhone : Option String
  status : RegistrationStatus
  timestamp : String
deriving DecidableEq, Repr

/-- Kind of a notification banner: success or error (App.tsx line 55). -/
inductive NotifKind where
  | success
  | error
deriving DecidableEq, Repr

/-- The notification state of App.tsx line 55. -/
structure Notification where
  message : String
  kind : NotifKind
deriving DecidableEq, Repr

/-- The ViewState union of App.tsx line 21. -/
inductive ViewState where
  | home
  | adminLogin
  | cms
  | userDashboard
deriving DecidableEq, Repr

/-- The reschedule modal state of App.tsx line 45. -/
structure RescheduleModal where
  isOpen : Bool
  eventId : String
  eventTitle : String
  currentDate : String
deriving DecidableEq, Repr

/-- The contact details argument of handleApplyConfirm (App.tsx line 153). -/
structure ApplyDetails where
  name : String
  email : String
  phoneNumber : String
deriving DecidableEq, Repr

/-- The component state of App (the useState hooks of App.tsx that the
action handlers read or write).  Pure render-local state (search term,
active tab, calendar mode, the admin-selected details modal) is carried
the same way but is untouched by every handler modelled here, so it is
omitted from the record. -/
structure AppState where
  currentView : ViewState
  adminAuthenticated : Bool
  currentUser : Option User
  showUserAuth : Bool
  events : List Event
  applications : List Application
  loading : Bool
  isModalOpen : Bool
  isApplicationModalOpen : Bool
  selectedEventForApp : Option Event
  rescheduleModal : Option RescheduleModal
  newDate : String
  formSubmitting : Bool
  notification : Option Notification
deriving DecidableEq, Repr

/-- The initial hook values of App.tsx lines 25-55. -/
def initialState : AppState where
  currentView := ViewState.home
  adminAuthenticated := false
  currentUser := Option.none
  showUserAuth := false
  events := []
  applications := []
  loading := true
  isModalOpen := false
  isApplicationModalOpen := false
  selectedEventForApp := Option.none
  rescheduleModal := Option.none
  newDate := ""
  formSubmitting := false
  notification := Option.none

/-- The remote persistence operations App.tsx imports from
services/mockDatabase (not under src/; the call sites fix the shapes). -/
inductive RemoteCall where
  | getEvents
  | getApplications
  | createEvent (data : EventFormData)
  | deleteEvent (id : String)
  | updateEvent (id : String) (date : String)
  | applyForEvent (eventId : String) (userId : String) (details : ApplyDetails)
  | updateApplicationStatus (appId : String) (status : RegistrationStatus)
deriving DecidableEq, Repr

/-- loadEvents (App.tsx lines 90-100): sets loading, replaces the event
collection wholesale with the fetch result, logs failures silently.
The final state has loading false either way; on a failed fetch the
collection is untouched. -/
def loadEvents (s : AppState) (result : Option (List Event)) : AppState :=
  match result with
  | Option.some data => { s with events := data, loading := false }
  | Option.none => { s with loading := false }

/-- loadApplications (App.tsx lines 102-109). -/
def loadApplications (s : AppState) (result : Option (List Application)) : AppState :=
  match result with
  | Option.some apps => { s with applications := apps }
  | Option.none => s

/-- JS truthiness of an optional string: undefined and the empty string
are falsy, every other string is truthy. -/
def strTruthy : Option String → Bool
  | Option.some str => str ≠ ""
  | Option.none => false

/-- The test of App.tsx line 164 (and 143, 179):
e.registrationStatus and e.registrationStatus not equal to none. -/
def isCancelling (rs : Option RegistrationStatus) : Bool :=
  match rs with
  | Option.some st => st ≠ RegistrationStatus.none
  | Option.none => false

/-- The per-event optimistic status written at App.tsx line 167:
none when cancelling, pending when applying. -/
def optimisticRegStatus (rs : Option RegistrationStatus) : RegistrationStatus :=
  if isCancelling rs then RegistrationStatus.none else RegistrationStatus.pending

/-- App.tsx line 154: directEventId or selectedEventForApp?._id, combined
with the guard of line 155 that rejects a missing or empty id. -/
def resolveApplyEventId (s : AppState) (directEventId : Option String) : Option String :=
  let raw : Option String :=
    match directEventId with
    | Option.some id => if id = "" then s.selectedEventForApp.map Event._id else Option.some id
    | Option.none => s.selectedEventForApp.map Event._id
  match raw with
  | Option.some id => if id = "" then Option.none else Option.some id
  | Option.none => Option.none

/-- The synchronous prefix of handleApplyConfirm (App.tsx lines 153-174):
everything the handler does before the remote applyForEvent call is
awaited.  Past the line-155 guard, it sets formSubmitting, writes the
optimistic registration status for the targeted event into the event
collection (lines 160-171), and overwrites the session user with the
submitted contact details (line 174). -/
def handleApplyConfirmOptimistic (s : AppState) (details : ApplyDetails)
    (directEventId : Option String) : AppState :=
  match resolveApplyEventId s directEventId, s.currentUser with
  | Option.some eventId, Option.some user =>
      { s with
        formSubmitting := true
        events := s.events.map fun e =>
          if e._id = eventId then
            { e with registrationStatus := Option.some (optimisticRegStatus e.registrationStatus) }
          else e
        currentUser := Option.some
          { user with
            name := details.name
            email := details.email
            phoneNumber := Option.some details.phoneNumber } }
  | _, _ => s

/-- The success-branch notification of App.tsx lines 178-191.  The find
runs over the closure-captured pre-optimistic event list. -/
def applyNotification (preEvents : List Event) (eventId : String) : Notification :=
  let event := preEvents.find? fun e => e._id = eventId
  let cancelling :=
    match event with
    | Option.some e => isCancelling e.registrationStatus
    | Option.none => false
  if cancelling then
    { message := "Application withdrawn.", kind := NotifKind.success }
  else
    { message := "Application submitted! An admin will review your request.",
      kind := NotifKind.success }

/-- handleApplyConfirm (App.tsx lines 153-202) run to completion.
remoteOk is whether the awaited applyForEvent call resolved; reload is
the result of the compensating loadEvents fetch issued in the catch
branch (unused when remoteOk).  Returns the settled state and the remote
calls issued, in order.  The finally block (lines 197-201) closes the
application modal and clears formSubmitting on both branches; the
line-155 guard returns before the try, so nothing runs then. -/
def handleApplyConfirm (s : AppState) (details : ApplyDetails)
    (directEventId : Option String) (remoteOk : Bool)
    (reload : Option (List Event)) : AppState × List RemoteCall :=
  match resolveApplyEventId s directEventId, s.currentUser with
  | Option.some eventId, Option.some user =>
      let sOpt := handleApplyConfirmOptimistic s details directEventId
      let call := RemoteCall.applyForEvent eventId user.id details
      if remoteOk then
        ({ sOpt with
            notification := Option.some (applyNotification s.events eventId)
            formSubmitting := false
            isApplicationModalOpen := false
            selectedEventForApp := Option.none },
         [call])
      else
        let sReverted := loadEvents sOpt reload
        ({ sReverted with
            notification := Option.some { message := "Action failed.", kind := NotifKind.error }
            formSubmitting := false
            isApplicationModalOpen := false
            selectedEventForApp := Option.none },
         [call, RemoteCall.getEvents])
  | _, _ => (s, [])

/-- initiateJoinEvent (App.tsx lines 137-151).  With no session user it
only opens the auth prompt.  Otherwise a cancel goes straight through
handleApplyConfirm (so remoteOk/reload feed that call) and a fresh apply
only opens the confirmation modal (no remote call yet). -/
def initiateJoinEvent (s : AppState) (event : Event) (remoteOk : Bool)
    (reload : Option (List Event)) : AppState × List RemoteCall :=
  match s.currentUser with
  | Option.none => ({ s with showUserAuth := true }, [])
  | Option.some user =>
      if isCancelling event.registrationStatus then
        handleApplyConfirm s
          { name := user.name, email := user.email,
            phoneNumber := user.phoneNumber.getD "" }
          (Option.some event._id) remoteOk reload
      else
        ({ s with selectedEventForApp := Option.some event,
                  isApplicationModalOpen := true }, [])

/-- handleCreateEvent (App.tsx lines 206-221).  result is the event
record returned by the remote createEvent call, none when it threw.
Line 209 coalesces an empty imageUrl to undefined for the payload, and
line 211 re-applies a truthy form imageUrl onto the returned record. -/
def handleCreateEvent (s : AppState) (data : EventFormData)
    (result : Option Event) : AppState × List RemoteCall :=
  let payload := { data with imageUrl := if strTruthy data.imageUrl then data.imageUrl else Option.none }
  let call := RemoteCall.createEvent payload
  match result with
  | Option.some newEvent =>
      let newEvent :=
        if strTruthy data.imageUrl then { newEvent with imageUrl := data.imageUrl } else newEvent
      ({ s with
          events := newEvent :: s.events
          isModalOpen := false
          notification := Option.some { message := "Event created successfully!", kind := NotifKind.success }
          formSubmitting := false },
       [call])
  | Option.none =>
      ({ s with
          notification := Option.some { message := "Failed to create event.", kind := NotifKind.error }
          formSubmitting := false },
       [call])

/-- handleDeleteEvent (App.tsx lines 223-233).  confirmed is the result
of the window.confirm destructive-action guard of line 225; a declined
confirm returns before any remote call.  remoteOk is whether the remote
deleteEvent call resolved. -/
def handleDeleteEvent (s : AppState) (id : String) (confirmed : Bool)
    (remoteOk : Bool) : AppState × List RemoteCall :=
  if !confirmed then (s, [])
  else if remoteOk then
    ({ s with
        events := s.events.filter fun ev => ev._id ≠ id
        notification := Option.some { message := "Event deleted.", kind := NotifKind.success } },
     [RemoteCall.deleteEvent id])
  else
    ({ s with
        notification := Option.some { message := "Failed to delete event.", kind := NotifKind.error } },
     [RemoteCall.deleteEvent id])

/-- The TS string of a RegistrationStatus, for the template literal of
App.tsx line 251. -/
def statusText : RegistrationStatus → String
  | RegistrationStatus.none => "none"
  | RegistrationStatus.pending => "pending"
  | RegistrationStatus.confirmed => "confirmed"
  | RegistrationStatus.rejected => "rejected"

/-- handleApplicationAction (App.tsx lines 235-255).  On a resolved
updateApplicationStatus call it patches the local application record,
and, only when the application id is found in the local collection
(line 243-249), reloads the event collection; then a success
notification.  When the remote call throws, only an error notification
is emitted: no reload happens. -/
def handleApplicationAction (s : AppState) (appId : String)
    (status : RegistrationStatus) (remoteOk : Bool)
    (reload : Option (List Event)) : AppState × List RemoteCall :=
  let call := RemoteCall.updateApplicationStatus appId status
  if remoteOk then
    let s1 := { s with
      applications := s.applications.map fun a =>
        if a.id = appId then { a with status := status } else a }
    let found := s.applications.find? fun a => a.id = appId
    match found with
    | Option.some _ =>
        let s2 := loadEvents s1 reload
        ({ s2 with
            notification := Option.some
              { message := "Application updated to " ++ statusText status ++ ".",
                kind := NotifKind.success } },
         [call, RemoteCall.getEvents])
    | Option.none =>
        ({ s1 with
            notification := Option.some
              { message := "Application updated to " ++ statusText status ++ ".",
                kind := NotifKind.success } },
         [call])
  else
    ({ s with
        notification := Option.some { message := "Failed to update application.", kind := NotifKind.error } },
     [call])

/-- handleRescheduleSubmit (App.tsx lines 264-275).  The line-265 guard
returns with no call when the modal is closed or the new date empty.
On a resolved updateEvent call only the date field of the target event
is patched, the modal closes and a success notification is shown; on a
thrown call only an error notification is emitted. -/
def handleRescheduleSubmit (s : AppState) (remoteOk : Bool) : AppState × List RemoteCall :=
  match s.rescheduleModal with
  | Option.none => (s, [])
  | Option.some modal =>
      if s.newDate = "" then (s, [])
      else
        let call := RemoteCall.updateEvent modal.eventId s.newDate
        if remoteOk then
          ({ s with
              events := s.events.map fun e =>
                if e._id = modal.eventId then { e with date := s.newDate } else e
              notification := Option.some
                { message := "Event rescheduled successfully. Applicants notified.",
                  kind := NotifKind.success }
              rescheduleModal := Option.none },
           [call])
        else
          ({ s with
              notification := Option.some { message := "Failed to reschedule.", kind := NotifKind.error } },
           [call])

/-- The screens the top-level render of App can produce. -/
inductive Screen where
  | homeScreen
  | dashboardScreen
  | adminLoginScreen
  | cmsScreen
  | accessDenied
deriving DecidableEq, Repr

/-- The view-router dispatch of App.tsx lines 297-755: the if-chain over
currentView with its auth guards, ending in the Access Denied fallback. -/
def render (s : AppState) : Screen :=
  if s.currentView = ViewState.home then Screen.homeScreen
  else if s.currentView = ViewState.userDashboard ∧ s.currentUser.isSome then Screen.dashboardScreen
  else if s.currentView = ViewState.adminLogin then Screen.adminLoginScreen
  else if s.currentView = ViewState.cms ∧ s.adminAuthenticated then Screen.cmsScreen
  else Screen.accessDenied

/-!
Discrete-time model of the notification lifecycle (App.tsx lines 83-88,
the auto-dismiss effect; line 290, the manual dismiss button; every
setNotification call site).  The single notification slot holds at most
one live notification.  Posting one runs the effect: the cleanup of the
previous effect clears any pending timer and a fresh 5-unit timer is
armed.  Dismissing sets the slot to null; the effect cleanup cancels the
timer and no new one is armed.  A tick advances the armed timer by one
unit; when it expires the effect callback clears the slot.
-/

/-- The notification slot with its auto-dismiss timer: the timer field
is the remaining units of the armed setTimeout, none when no timer is
pending. -/
structure NotifState where
  live : Option Notification
  timer : Option Nat
deriving DecidableEq, Repr

/-- Events acting on the notification slot: a setNotification with a
fresh notification (post), the manual dismiss of line 290, or one unit
of time passing. -/
inductive NotifEvent where
  | post (n : Notification)
  | dismiss
  | tick
deriving DecidableEq, Repr

/-- One step of the notification lifecycle. -/
def notifStep (s : NotifState) (ev : NotifEvent) : NotifState :=
  match ev with
  | NotifEvent.post n => { live := Option.some n, timer := Option.some 5 }
  | NotifEvent.dismiss => { live := Option.none, timer := Option.none }
  | NotifEvent.tick =>
      match s.timer with
      | Option.some (t + 1) =>
          if t = 0 then { live := Option.none, timer := Option.none }
          else { live := s.live, timer := Option.some t }
      | _ => s

/-- k ticks in sequence. -/
def notifTicks (k : Nat) (s : NotifState) : NotifState :=
  match k with
  | 0 => s
  | k + 1 => notifTicks k (notifStep s NotifEvent.tick)

/-! Concrete fixtures used by the witness and counterexample theorems. -/

/-- A sample logged-in attendee. -/
def sampleUser : User where
  id := "u1"
  name := "Ada"
  email := "ada@example.com"
  phoneNumber := Option.some "555"
  role := Role.user

/-- A sample event with no registration yet. -/
def sampleEvent : Event where
  _id := "e1"
  title := "Launch Party"
  date := "2025-01-01T10:00"
  location := "HQ"
  description := "kickoff"
  category := "Networking"
  attendees := 0
  capacity := 10
  imageUrl := Option.none
  status := EventStatus.upcoming
  registrationStatus := Option.none

/-- A sample pending application for sampleEvent by sampleUser. -/
def sampleApplication : Application where
  id := "a1"
  eventId := "e1"
  eventTitle := "Launch Party"
  userId := "u1"
  userName := "Ada"
  userEmail := "ada@example.com"
  userPhone := Option.none
  status := RegistrationStatus.pending
  timestamp := "t0"

/-- A loaded state with one event, one application and a logged-in user. -/
def sampleState : AppState :=
  { initialState with
    events := [sampleEvent]
    applications := [sampleApplication]
    currentUser := Option.some sampleUser
    loading := false }

/-- Sample contact details submitted with a registration action. -/
def sampleDetails : ApplyDetails where
  name := "Ada"
  email := "ada@example.com"
  phoneNumber := "555"

/-- A sample open reschedule modal targeting sampleEvent. -/
def sampleModal : RescheduleModal where
  isOpen := true
  eventId := "e1"
  eventTitle := "Launch Party"
  currentDate := "2025-01-01T10:00"

/-- sampleState with the reschedule modal open and a new date typed in. -/
def rescheduleState : AppState :=
  { sampleState with
    rescheduleModal := Option.some sampleModal
    newDate := "2025-02-02T09:00" }

/-- sampleState with nobody logged in. -/
def loggedOutState : AppState :=
  { sampleState with currentUser := Option.none }

/-! Claim theorems. -/

/-- Claim C1: with a logged-in viewer and a resolved target event id, the
synchronous prefix of handleApplyConfirm (everything before the remote
register call resolves) rewrites the target event with the optimistic
status, and that status is pending exactly when the previous per-viewer
registrationStatus was absent or none, and none (never pending) when the
previous status was pending, confirmed or rejected. -/
theorem apply_optimistic_toggle (s : AppState) (details : ApplyDetails)
    (directEventId : Option String) (eventId : String) (user : User)
    (hid : resolveApplyEventId s directEventId = Option.some eventId)
    (huser : s.currentUser = Option.some user) :
    (handleApplyConfirmOptimistic s details directEventId).events
      = s.events.map (fun e =>
          if e._id = eventId then
            { e with registrationStatus := Option.some (optimisticRegStatus e.registrationStatus) }
          else e)
    ∧ (∀ rs : Option RegistrationStatus,
        ((rs = Option.none ∨ rs = Option.some RegistrationStatus.none) →
          optimisticRegStatus rs = RegistrationStatus.pending)
        ∧ (∀ st : RegistrationStatus,
            rs = Option.some st → st ≠ RegistrationStatus.none →
            optimisticRegStatus rs = RegistrationStatus.none)) := by
  constructor
  · simp [handleApplyConfirmOptimistic, hid, huser]
  · intro rs
    constructor
    · rintro (rfl | rfl) <;> simp [optimisticRegStatus, isCancelling]
    · rintro st rfl hne
      simp [optimisticRegStatus, isCancelling, hne]

/-- Witness for apply_optimistic_toggle at the sample fixtures. -/
theorem apply_optimistic_toggle_witness :
    (handleApplyConfirmOptimistic sampleState sampleDetails (Option.some "e1")).events
      = sampleState.events.map (fun e =>
          if e._id = "e1" then
            { e with registrationStatus := Option.some (optimisticRegStatus e.registrationStatus) }
          else e)
    ∧ (∀ rs : Option RegistrationStatus,
        ((rs = Option.none ∨ rs = Option.some RegistrationStatus.none) →
          optimisticRegStatus rs = RegistrationStatus.pending)
        ∧ (∀ st : RegistrationStatus,
            rs = Option.some st → st ≠ RegistrationStatus.none →
            optimisticRegStatus rs = RegistrationStatus.none)) :=
  apply_optimistic_toggle sampleState sampleDetails (Option.some "e1") "e1" sampleUser
    (by decide) (by decide)

/-- Claim C2: when the remote register/cancel call fails, the settled
state has the event collection replaced by the freshly fetched backend
collection (the compensating loadEvents of the catch branch) and the
single notification slot holds exactly the one error notification; the
remote trace is the failed register call followed by the reload fetch. -/
theorem apply_failure_reverts (s : AppState) (details : ApplyDetails)
    (directEventId : Option String) (eventId : String) (user : User)
    (backendEvents : List Event)
    (hid : resolveApplyEventId s directEventId = Option.some eventId)
    (huser : s.currentUser = Option.some user) :
    (handleApplyConfirm s details directEventId false (Option.some backendEvents)).1.events
      = backendEvents
    ∧ (handleApplyConfirm s details directEventId false (Option.some backendEvents)).1.notification
      = Option.some { message := "Action failed.", kind := NotifKind.error }
    ∧ (handleApplyConfirm s details directEventId false (Option.some backendEvents)).2
      = [RemoteCall.applyForEvent eventId user.id details, RemoteCall.getEvents] := by
  refine ⟨?_, ?_, ?_⟩ <;> simp [handleApplyConfirm, hid, huser, loadEvents]

/-- Witness for apply_failure_reverts at the sample fixtures. -/
theorem apply_failure_reverts_witness :
    (handleApplyConfirm sampleState sampleDetails (Option.some "e1") false (Option.some [])).1.events
      = []
    ∧ (handleApplyConfirm sampleState sampleDetails (Option.some "e1") false (Option.some [])).1.notification
      = Option.some { message := "Action failed.", kind := NotifKind.error }
    ∧ (handleApplyConfirm sampleState sampleDetails (Option.some "e1") false (Option.some [])).2
      = [RemoteCall.applyForEvent "e1" sampleUser.id sampleDetails, RemoteCall.getEvents] :=
  apply_failure_reverts sampleState sampleDetails (Option.some "e1") "e1" sampleUser []
    (by decide) (by decide)

/-- Claim C10: past the guard, handleApplyConfirm overwrites the session
user record with the submitted name, email and phone in its synchronous
prefix (App.tsx line 174, before the remote call of line 176 is issued),
and a failed remote call does not revert that overwrite: the settled
failure state still carries the updated identity, since the catch branch
only reloads the event collection. -/
theorem apply_overwrites_session_identity (s : AppState) (details : ApplyDetails)
    (directEventId : Option String) (eventId : String) (user : User)
    (reload : Option (List Event))
    (hid : resolveApplyEventId s directEventId = Option.some eventId)
    (huser : s.currentUser = Option.some user) :
    (handleApplyConfirmOptimistic s details directEventId).currentUser
      = Option.some
          { user with
            name := details.name
            email := details.email
            phoneNumber := Option.some details.phoneNumber }
    ∧ (handleApplyConfirm s details directEventId false reload).1.currentUser
      = Option.some
          { user with
            name := details.name
            email := details.email
            phoneNumber := Option.some details.phoneNumber } := by
  constructor
  · simp [handleApplyConfirmOptimistic, hid, huser]
  · cases reload <;>
      simp [handleApplyConfirm, handleApplyConfirmOptimistic, hid, huser, loadEvents]

/-- Witness for apply_overwrites_session_identity at the sample fixtures. -/
theorem apply_overwrites_session_identity_witness :
    (handleApplyConfirmOptimistic sampleState sampleDetails (Option.some "e1")).currentUser
      = Option.some
          { sampleUser with
            name := sampleDetails.name
            email := sampleDetails.email
            phoneNumber := Option.some sampleDetails.phoneNumber }
    ∧ (handleApplyConfirm sampleState sampleDetails (Option.some "e1") false (Option.some [])).1.currentUser
      = Option.some
          { sampleUser with
            name := sampleDetails.name
            email := sampleDetails.email
            phoneNumber := Option.some sampleDetails.phoneNumber } :=
  apply_overwrites_session_identity sampleState sampleDetails (Option.some "e1") "e1"
    sampleUser (Option.some []) (by decide) (by decide)

/-- Claim C3 counterexample: an admin status change whose remote call
fails triggers no event-collection reload.  At the sample state (which
holds pending application a1 and a non-empty event list) the failed
updateApplicationStatus call leaves the event collection untouched and
issues no getEvents fetch, contradicting that a reload happens
regardless of the outcome of the status-update call. -/
theorem application_action_failure_skips_reload_cex :
    (handleApplicationAction sampleState "a1" RegistrationStatus.confirmed false
        (Option.some [])).2
      = [RemoteCall.updateApplicationStatus "a1" RegistrationStatus.confirmed]
    ∧ RemoteCall.getEvents ∉
        (handleApplicationAction sampleState "a1" RegistrationStatus.confirmed false
          (Option.some [])).2
    ∧ (handleApplicationAction sampleState "a1" RegistrationStatus.confirmed false
        (Option.some [])).1.events = sampleState.events
    ∧ sampleState.events ≠ [] := by
  decide

/-- Claim C3 as amended: for an application present in the local
collection, a successful status change patches the local application
record, triggers a full event-collection reload (so the local events
equal the fetched backend collection) and emits a success notification;
a failed status change emits only an error notification, with no reload
and no other state change. -/
theorem application_action_behavior (s : AppState) (appId : String)
    (status : RegistrationStatus) (backendEvents : List Event) (app : Application)
    (hfound : s.applications.find? (fun a => a.id = appId) = Option.some app) :
    ((handleApplicationAction s appId status true (Option.some backendEvents)).1.events
        = backendEvents
      ∧ (handleApplicationAction s appId status true (Option.some backendEvents)).1.applications
        = s.applications.map (fun a => if a.id = appId then { a with status := status } else a)
      ∧ (handleApplicationAction s appId status true (Option.some backendEvents)).1.notification
        = Option.some
            { message := "Application updated to " ++ statusText status ++ ".",
              kind := NotifKind.success }
      ∧ (handleApplicationAction s appId status true (Option.some backendEvents)).2
        = [RemoteCall.updateApplicationStatus appId status, RemoteCall.getEvents])
    ∧ ((handleApplicationAction s appId status false (Option.some backendEvents)).1
        = { s with notification := Option.some { message := "Failed to update application.", kind := NotifKind.error } }
      ∧ (handleApplicationAction s appId status false (Option.some backendEvents)).2
        = [RemoteCall.updateApplicationStatus appId status]) := by
  refine ⟨⟨?_, ?_, ?_, ?_⟩, ?_, ?_⟩ <;>
    simp [handleApplicationAction, hfound, loadEvents]

/-- Witness for application_action_behavior at the sample fixtures. -/
theorem application_action_behavior_witness :
    ((handleApplicationAction sampleState "a1" RegistrationStatus.confirmed true (Option.some [])).1.events
        = []
      ∧ (handleApplicationAction sampleState "a1" RegistrationStatus.confirmed true (Option.some [])).1.applications
        = sampleState.applications.map
            (fun a => if a.id = "a1" then { a with status := RegistrationStatus.confirmed } else a)
      ∧ (handleApplicationAction sampleState "a1" RegistrationStatus.confirmed true (Option.some [])).1.notification
        = Option.some
            { message := "Application updated to " ++ statusText RegistrationStatus.confirmed ++ ".",
              kind := NotifKind.success }
      ∧ (handleApplicationAction sampleState "a1" RegistrationStatus.confirmed true (Option.some [])).2
        = [RemoteCall.updateApplicationStatus "a1" RegistrationStatus.confirmed, RemoteCall.getEvents])
    ∧ ((handleApplicationAction sampleState "a1" RegistrationStatus.confirmed false (Option.some [])).1
        = { sampleState with notification := Option.some { message := "Failed to update application.", kind := NotifKind.error } }
      ∧ (handleApplicationAction sampleState "a1" RegistrationStatus.confirmed false (Option.some [])).2
        = [RemoteCall.updateApplicationStatus "a1" RegistrationStatus.confirmed]) :=
  application_action_behavior sampleState "a1" RegistrationStatus.confirmed [] sampleApplication
    (by decide)

/-- Claim C4: a successful create prepends the record returned by the
backend (with App.tsx line 211 re-applying a truthy submitted imageUrl
onto it) as the new first element of the collection, closes the creation
form and shows a success notification; a failed create leaves the
collection unchanged, shows an error notification, and does not touch
the form-open flag (the form stays open). -/
theorem create_event_behavior (s : AppState) (data : EventFormData) (newEvent : Event) :
    ((handleCreateEvent s data (Option.some newEvent)).1.events
        = (if strTruthy data.imageUrl then { newEvent with imageUrl := data.imageUrl } else newEvent)
            :: s.events
      ∧ (handleCreateEvent s data (Option.some newEvent)).1.isModalOpen = false
      ∧ (handleCreateEvent s data (Option.some newEvent)).1.notification
        = Option.some { message := "Event created successfully!", kind := NotifKind.success })
    ∧ ((handleCreateEvent s data Option.none).1.events = s.events
      ∧ (handleCreateEvent s data Option.none).1.isModalOpen = s.isModalOpen
      ∧ (handleCreateEvent s data Option.none).1.notification
        = Option.some { message := "Failed to create event.", kind := NotifKind.error }) := by
  refine ⟨⟨?_, ?_, ?_⟩, ?_, ?_, ?_⟩ <;> simp [handleCreateEvent]

/-- Claim C5: deleting asks for confirmation first: a declined confirm
leaves the state untouched and issues no remote call; a confirmed delete
issues exactly the remote delete call, and on success removes the record
from the collection by identifier, while on failure it only shows an
error notification and removes nothing. -/
theorem delete_event_behavior (s : AppState) (id : String) :
    (handleDeleteEvent s id false true = (s, [])
      ∧ handleDeleteEvent s id false false = (s, []))
    ∧ ((handleDeleteEvent s id true true).1.events
        = s.events.filter (fun ev => ev._id ≠ id)
      ∧ (handleDeleteEvent s id true true).1.notification
        = Option.some { message := "Event deleted.", kind := NotifKind.success }
      ∧ (handleDeleteEvent s id true true).2 = [RemoteCall.deleteEvent id])
    ∧ ((handleDeleteEvent s id true false).1
        = { s with notification := Option.some { message := "Failed to delete event.", kind := NotifKind.error } }
      ∧ (handleDeleteEvent s id true false).2 = [RemoteCall.deleteEvent id]) := by
  refine ⟨⟨?_, ?_⟩, ⟨?_, ?_, ?_⟩, ?_, ?_⟩ <;> simp [handleDeleteEvent]

/-- Claim C6: reschedule commits only after the remote call succeeds.
On success only the date field of the target event is patched: the
patching function preserves every other field of every event and leaves
events with a different identifier entirely unchanged.  On failure the
whole state except the notification slot is untouched (the stale date
stays), an error notification is shown, and the single remote call
carried only the identifier and the new date. -/
theorem reschedule_commits_after_success (s : AppState) (modal : RescheduleModal)
    (hm : s.rescheduleModal = Option.some modal) (hd : s.newDate ≠ "") :
    ((handleRescheduleSubmit s true).1.events
        = s.events.map (fun e => if e._id = modal.eventId then { e with date := s.newDate } else e)
      ∧ (∀ e : Event,
          (if e._id = modal.eventId then { e with date := s.newDate } else e)._id = e._id
          ∧ (if e._id = modal.eventId then { e with date := s.newDate } else e).title = e.title
          ∧ (if e._id = modal.eventId then { e with date := s.newDate } else e).location = e.location
          ∧ (if e._id = modal.eventId then { e with date := s.newDate } else e).description = e.description
          ∧ (if e._id = modal.eventId then { e with date := s.newDate } else e).category = e.category
          ∧ (if e._id = modal.eventId then { e with date := s.newDate } else e).attendees = e.attendees
          ∧ (if e._id = modal.eventId then { e with date := s.newDate } else e).capacity = e.capacity
          ∧ (if e._id = modal.eventId then { e with date := s.newDate } else e).imageUrl = e.imageUrl
          ∧ (if e._id = modal.eventId then { e with date := s.newDate } else e).status = e.status
          ∧ (if e._id = modal.eventId then { e with date := s.newDate } else e).registrationStatus
              = e.registrationStatus
          ∧ (e._id ≠ modal.eventId →
              (if e._id = modal.eventId then { e with date := s.newDate } else e) = e))
      ∧ (handleRescheduleSubmit s true).2 = [RemoteCall.updateEvent modal.eventId s.newDate])
    ∧ ((handleRescheduleSubmit s false).1
        = { s with notification := Option.some { message := "Failed to reschedule.", kind := NotifKind.error } }
      ∧ (handleRescheduleSubmit s false).2 = [RemoteCall.updateEvent modal.eventId s.newDate]) := by
  refine ⟨⟨?_, ?_, ?_⟩, ?_, ?_⟩ <;>
    first
      | (intro e
         by_cases he : e._id = modal.eventId <;> simp [he])
      | simp [handleRescheduleSubmit, hm, hd]

/-- Witness for reschedule_commits_after_success at the sample fixtures. -/
theorem reschedule_commits_after_success_witness :
    ((handleRescheduleSubmit rescheduleState true).1.events
        = rescheduleState.events.map
            (fun e => if e._id = sampleModal.eventId then { e with date := rescheduleState.newDate } else e)
      ∧ (∀ e : Event,
          (if e._id = sampleModal.eventId then { e with date := rescheduleState.newDate } else e)._id = e._id
          ∧ (if e._id = sampleModal.eventId then { e with date := rescheduleState.newDate } else e).title = e.title
          ∧ (if e._id = sampleModal.eventId then { e with date := rescheduleState.newDate } else e).location = e.location
          ∧ (if e._id = sampleModal.eventId then { e with date := rescheduleState.newDate } else e).description = e.description
          ∧ (if e._id = sampleModal.eventId then { e with date := rescheduleState.newDate } else e).category = e.category
          ∧ (if e._id = sampleModal.eventId then { e with date := rescheduleState.newDate } else e).attendees = e.attendees
          ∧ (if e._id = sampleModal.eventId then { e with date := rescheduleState.newDate } else e).capacity = e.capacity
          ∧ (if e._id = sampleModal.eventId then { e with date := rescheduleState.newDate } else e).imageUrl = e.imageUrl
          ∧ (if e._id = sampleModal.eventId then { e with date := rescheduleState.newDate } else e).status = e.status
          ∧ (if e._id = sampleModal.eventId then { e with date := rescheduleState.newDate } else e).registrationStatus
              = e.registrationStatus
          ∧ (e._id ≠ sampleModal.eventId →
              (if e._id = sampleModal.eventId then { e with date := rescheduleState.newDate } else e) = e))
      ∧ (handleRescheduleSubmit rescheduleState true).2
        = [RemoteCall.updateEvent sampleModal.eventId rescheduleState.newDate])
    ∧ ((handleRescheduleSubmit rescheduleState false).1
        = { rescheduleState with notification := Option.some { message := "Failed to reschedule.", kind := NotifKind.error } }
      ∧ (handleRescheduleSubmit rescheduleState false).2
        = [RemoteCall.updateEvent sampleModal.eventId rescheduleState.newDate]) :=
  reschedule_commits_after_success rescheduleState sampleModal (by decide) (by decide)

/-- Claim C7: with no viewer identity, initiateJoinEvent only opens the
authentication prompt: the settled state equals the pre-state with
showUserAuth set, so the event collection, the application collection
and both session fields are untouched, and no remote call is issued; and
the handleApplyConfirm guard likewise performs no mutation and issues no
call when the session user is absent. -/
theorem join_without_identity_no_mutation (s : AppState) (event : Event)
    (remoteOk : Bool) (reload : Option (List Event)) (details : ApplyDetails)
    (directEventId : Option String)
    (h : s.currentUser = Option.none) :
    initiateJoinEvent s event remoteOk reload = ({ s with showUserAuth := true }, [])
    ∧ handleApplyConfirm s details directEventId remoteOk reload = (s, []) := by
  constructor
  · simp [initiateJoinEvent, h]
  · cases hA : resolveApplyEventId s directEventId <;>
      simp [handleApplyConfirm, hA, h]

/-- Witness for join_without_identity_no_mutation at the sample fixtures. -/
theorem join_without_identity_no_mutation_witness :
    initiateJoinEvent loggedOutState sampleEvent true (Option.some [])
      = ({ loggedOutState with showUserAuth := true }, [])
    ∧ handleApplyConfirm loggedOutState sampleDetails (Option.some "e1") true (Option.some [])
      = (loggedOutState, []) :=
  join_without_identity_no_mutation loggedOutState sampleEvent true (Option.some [])
    sampleDetails (Option.some "e1") (by decide)

/-- Claim C8: whatever the rest of the state, the view router renders
the generic access-denied fallback in the cms state without the
admin-authenticated flag, and in the user-dashboard state without an
attendee identity; neither the admin console, nor the dashboard, nor a
redirect to another screen. -/
theorem router_guard_access_denied (s : AppState) :
    render { s with currentView := ViewState.cms, adminAuthenticated := false }
      = Screen.accessDenied
    ∧ render { s with currentView := ViewState.userDashboard, currentUser := Option.none }
      = Screen.accessDenied := by
  constructor <;> simp [render]

/-- Claim C9: the notification slot holds at most one notification (it
is a single Option-valued slot, updated atomically by notifStep).
Posting a notification arms a fresh 5-unit timer regardless of any
previous notification or pending timer (the superseded timer is gone).
Untouched, the notification is still live after 4 time units and is
discarded exactly at 5.  A manual dismiss clears it immediately, timer
included. -/
theorem notification_lifecycle (s : NotifState) (n : Notification) :
    notifStep s (NotifEvent.post n) = { live := Option.some n, timer := Option.some 5 }
    ∧ notifStep s NotifEvent.dismiss = { live := Option.none, timer := Option.none }
    ∧ (notifTicks 4 (notifStep s (NotifEvent.post n))).live = Option.some n
    ∧ notifTicks 5 (notifStep s (NotifEvent.post n))
      = { live := Option.none, timer := Option.none } :=
  ⟨rfl, rfl, rfl, rfl⟩

end EventApp
